import Mathlib

/-!
Verification of `source/shared/Forecast/forecast.py`.

The module is a desired-state reconciler around the Amazon Forecast service:
given a predictor and a dataset group it answers whether a fresh forecast
(and its export job) exists, and issues create calls when it does not.  All
state lives in the remote service; the embedding therefore models the remote
service as a record of response functions (`ForecastService`), and each
operation of the `Forecast` class as a Lean function of the service state.
Operations that issue remote calls additionally return the list of calls they
made (`RemoteCall`), so that claims about which calls are attempted can be
stated.  Python exceptions are modelled with `Except`: a raised exception is
`.error`, normal return is `.ok`.
-/

namespace ForecastPy

/-- Modelled from the spec: the local `Status` enumeration lives in
`shared/status.py`, which is not part of the supplied sources.  Per the spec
it mirrors the remote service's lifecycle values (does-not-exist,
create-pending, active, in-progress, failed, ...). -/
inductive Status where
  | DOES_NOT_EXIST
  | CREATE_PENDING
  | CREATE_IN_PROGRESS
  | CREATE_FAILED
  | ACTIVE
  | DELETE_PENDING
  | DELETE_IN_PROGRESS
  | DELETE_FAILED
  deriving DecidableEq

/-- Modelled from the spec: Python `Status[s]` looks an enumeration member up
by name and raises `KeyError` when no member has that name; `Status.lookup`
returns `none` exactly in the `KeyError` case. -/
def Status.lookup (s : String) : Option Status :=
  if s = "DOES_NOT_EXIST" then some .DOES_NOT_EXIST
  else if s = "CREATE_PENDING" then some .CREATE_PENDING
  else if s = "CREATE_IN_PROGRESS" then some .CREATE_IN_PROGRESS
  else if s = "CREATE_FAILED" then some .CREATE_FAILED
  else if s = "ACTIVE" then some .ACTIVE
  else if s = "DELETE_PENDING" then some .DELETE_PENDING
  else if s = "DELETE_IN_PROGRESS" then some .DELETE_IN_PROGRESS
  else if s = "DELETE_FAILED" then some .DELETE_FAILED
  else none

/-- Modelled from the spec: a `Predictor` (class not under the supplied
sources) exposes an `arn` identifier used for freshness comparison and
resource linkage. -/
structure Predictor where
  arn : String
  deriving DecidableEq

/-- A dataset entry of a dataset group, as returned by the remote service:
`forecast.py` reads only its `LastModificationTime`.  Timestamps are modelled
as naturals; only their order is used. -/
structure DatasetRecord where
  lastModificationTime : Nat
  deriving DecidableEq

/-- Modelled from the spec: a `DatasetGroup` (class not under the supplied
sources) exposes an identifier `arn`, a name, a latest-timestamp value and the
collection of its datasets. -/
structure DatasetGroup where
  arn : String
  dataset_group_name : String
  latest_timestamp : String
  datasets : List DatasetRecord
  deriving DecidableEq

/-- Modelled from the spec: a `DatasetFile` exposes a storage bucket
identifier, used only to build the export destination path. -/
structure DatasetFile where
  bucket : String
  deriving DecidableEq

/-- A forecast summary as returned by `list_forecasts`: the fields
`forecast.py` reads are `ForecastArn` and `LastModificationTime`; the
`DatasetGroupArn` field is what the service's `IS` filter compares. -/
structure ForecastSummary where
  forecastArn : String
  datasetGroupArn : String
  lastModificationTime : Nat
  deriving DecidableEq

/-- The fields of a `describe_forecast` response read by `forecast.py`:
`PredictorArn`, `CreationTime` and `Status`. -/
structure DescribeForecastResult where
  predictorArn : String
  creationTime : Nat
  statusStr : String
  deriving DecidableEq

/-- The field of a `describe_forecast_export_job` response read by
`forecast.py`: `Status`. -/
structure DescribeExportResult where
  statusStr : String
  deriving DecidableEq

/-- The named remote-service exceptions distinguished by `forecast.py`; every
other client error is `other`. -/
inductive RemoteError where
  | resourceAlreadyExists
  | resourceInUse
  | resourceNotFound
  | other (code : String)
  deriving DecidableEq

/-- Python exceptions that `forecast.py` can raise to its caller. -/
inductive PyError where
  | keyError (key : String)
  | valueError (msg : String)
  | remote (e : RemoteError)
  deriving DecidableEq

/-- A remote call issued by the class, with the request data it carried. -/
inductive RemoteCall where
  | listForecasts (datasetGroupArn : String)
  | describeForecast (forecastArn : String)
  | describeForecastExportJob (exportJobArn : String)
  | createForecast (name : String) (predictorArn : String)
      (config : List (String × String))
  | createForecastExportJob (forecastArn : String) (name : String)
      (path : String) (roleArn : Option String)
  deriving DecidableEq

/-- The remote service, as observed by one operation: the pages the
`list_forecasts` paginator would produce and the responses of the
describe/create endpoints.  `.error` models the endpoint raising. -/
structure ForecastService where
  forecastPages : List (List ForecastSummary)
  describeForecast : String → Except RemoteError DescribeForecastResult
  describeForecastExportJob : String → Except RemoteError DescribeExportResult
  createForecastResponse : String → String → Except RemoteError Unit
  createForecastExportJobResponse : String → String → String → Except RemoteError Unit

/-- The `Forecast` class: bound at construction to one predictor, one dataset
group and a pass-through configuration bag. -/
structure Forecast where
  predictor : Predictor
  dataset_group : DatasetGroup
  forecast_config : List (String × String)
  deriving DecidableEq

/-- Descending order on last-modification time: `sorted(key=LastModificationTime,
reverse=True)`. -/
def lmtGE (a b : ForecastSummary) : Prop :=
  b.lastModificationTime ≤ a.lastModificationTime

instance : DecidableRel lmtGE := fun a b =>
  Nat.decLe b.lastModificationTime a.lastModificationTime

instance : IsTotal ForecastSummary lmtGE :=
  ⟨fun a b => Nat.le_total b.lastModificationTime a.lastModificationTime⟩

instance : IsTrans ForecastSummary lmtGE :=
  ⟨fun _ _ _ hab hbc => Nat.le_trans hbc hab⟩

/-- The loop `for page in iterator: past_forecasts.extend(page)`. -/
def drainPages (pages : List (List α)) : List α :=
  pages.foldl (fun acc page => acc ++ page) []

/-- The paginated `list_forecasts` call with the single filter
`DatasetGroupArn IS dsgArn`: the service applies the filter to each page. -/
def ForecastService.listForecastsPages (svc : ForecastService) (dsgArn : String) :
    List (List ForecastSummary) :=
  svc.forecastPages.map (fun page => page.filter (fun f => f.datasetGroupArn == dsgArn))

/-- `Forecast.history`: drain all pages of the filtered listing, then sort
descending by `LastModificationTime`. -/
def Forecast.history (fc : Forecast) (svc : ForecastService) : List ForecastSummary :=
  List.insertionSort lmtGE (drainPages (svc.listForecastsPages fc.dataset_group.arn))

/-- `Forecast.arn`: the `ForecastArn` of the most recent entry of the history,
or `None` when the history is empty. -/
def Forecast.arn (fc : Forecast) (svc : ForecastService) : Option String :=
  match fc.history svc with
  | [] => none
  | f :: _ => some f.forecastArn

/-- `Forecast.status`: `DOES_NOT_EXIST` when there is no history; otherwise
describe the most recent forecast and report `DOES_NOT_EXIST` when it is stale
(different predictor, or some dataset modified after its creation); otherwise
map the remote status string through the enumeration (`KeyError` when the
string has no member). -/
def Forecast.status (fc : Forecast) (svc : ForecastService) : Except PyError Status :=
  match fc.history svc with
  | [] => .ok Status.DOES_NOT_EXIST
  | f :: _ =>
    match svc.describeForecast f.forecastArn with
    | .error e => .error (.remote e)
    | .ok past =>
      if past.predictorArn ≠ fc.predictor.arn then
        .ok Status.DOES_NOT_EXIST
      else if fc.dataset_group.datasets.any
          (fun d => past.creationTime < d.lastModificationTime) then
        .ok Status.DOES_NOT_EXIST
      else
        match Status.lookup past.statusStr with
        | some s => .ok s
        | none => .error (.keyError past.statusStr)

/-- `Forecast._latest_timestamp`: the dataset group's latest timestamp. -/
def Forecast._latest_timestamp (fc : Forecast) : String :=
  fc.dataset_group.latest_timestamp

/-- The name `create()` uses:
`forecast_` + dataset-group name + `_` + latest timestamp. -/
def Forecast.forecastName (fc : Forecast) : String :=
  "forecast_" ++ fc.dataset_group.dataset_group_name ++ "_" ++ fc._latest_timestamp

/-- `Forecast.create`: issue `create_forecast`; swallow
`ResourceAlreadyExistsException` and `ResourceInUseException` (logged only),
re-raise every other error.  Also returns the calls issued. -/
def Forecast.create (fc : Forecast) (svc : ForecastService) :
    Except PyError Unit × List RemoteCall :=
  (match svc.createForecastResponse fc.forecastName fc.predictor.arn with
    | .ok _ => .ok ()
    | .error .resourceAlreadyExists => .ok ()
    | .error .resourceInUse => .ok ()
    | .error e => .error (.remote e),
   [.createForecast fc.forecastName fc.predictor.arn fc.forecast_config])

/-- Two sequential calls of `create()`; `svc1` and `svc2` are the remote
states observed by the first and the second call.  If the first raises, the
second is never reached. -/
def Forecast.createTwice (fc : Forecast) (svc1 svc2 : ForecastService) :
    Except PyError Unit :=
  match (fc.create svc1).1 with
  | .ok _ => (fc.create svc2).1
  | .error e => .error e

/-- The `Export` value: holds one status, defaulting to `DOES_NOT_EXIST`. -/
structure Export where
  status : Status := Status.DOES_NOT_EXIST
  deriving DecidableEq

/-- The export name `export()` derives:
`export_` + dataset-group name + `_` + latest timestamp. -/
def Forecast.exportName (fc : Forecast) : String :=
  "export_" ++ fc.dataset_group.dataset_group_name ++ "_" ++ fc._latest_timestamp

/-- The export-job identifier `export()` derives from the forecast ARN by
substituting the resource-type segment and appending the export name. -/
def exportJobArn (forecastArn exportName : String) : String :=
  (forecastArn.replace ":forecast/" ":forecast-export-job/") ++ "/" ++ exportName

/-- `Forecast.export(dataset_file)`: raise `ValueError` when no forecast ARN
resolves; otherwise describe the derived export job and
(found) decode its status, (`ResourceInUse`) log and leave the fresh
`Export`'s status untouched, (`ResourceNotFound`) issue one
`create_forecast_export_job` with destination
`s3://` + bucket + `/exports/` + export name and report `CREATE_PENDING`.
Each access of `self.arn` re-runs the listing, hence the repeated
`listForecasts` entries in the trace.  Returns the result and the calls
issued. -/
def Forecast.exportOp (fc : Forecast) (svc : ForecastService) (df : DatasetFile)
    (roleArn : Option String) : Except PyError Export × List RemoteCall :=
  match fc.arn svc with
  | none =>
    (.error (.valueError "Forecast does not yet exist - cannot perform export."),
     [.listForecasts fc.dataset_group.arn])
  | some fArn =>
    let jobArn := exportJobArn fArn fc.exportName
    let trace2 : List RemoteCall :=
      [.listForecasts fc.dataset_group.arn, .listForecasts fc.dataset_group.arn,
       .describeForecastExportJob jobArn]
    match svc.describeForecastExportJob jobArn with
    | .ok res =>
      match Status.lookup res.statusStr with
      | some s => (.ok { status := s }, trace2)
      | none => (.error (.keyError res.statusStr), trace2)
    | .error .resourceInUse =>
      (.ok { status := Status.DOES_NOT_EXIST }, trace2)
    | .error .resourceNotFound =>
      let path := "s3://" ++ df.bucket ++ "/exports/" ++ fc.exportName
      let trace3 := trace2 ++
        [.listForecasts fc.dataset_group.arn,
         .createForecastExportJob fArn fc.exportName path roleArn]
      match svc.createForecastExportJobResponse fArn fc.exportName path with
      | .ok _ => (.ok { status := Status.CREATE_PENDING }, trace3)
      | .error e => (.error (.remote e), trace3)
    | .error e => (.error (.remote e), trace2)

/-- Recogniser for `create_forecast_export_job` calls in a trace. -/
def RemoteCall.isCreateExportJob : RemoteCall → Bool
  | .createForecastExportJob _ _ _ _ => true
  | _ => false

end ForecastPy

namespace ForecastPy

/-! ## Concrete fixtures used by the witnesses -/

/-- The dataset group of the spec's example scenario: name `sales`, latest
timestamp `2021-05-01T00:00:00Z`, one dataset last modified at time 5. -/
def dsgW : DatasetGroup :=
  { arn := "dg1", dataset_group_name := "sales",
    latest_timestamp := "2021-05-01T00:00:00Z",
    datasets := [{ lastModificationTime := 5 }] }

/-- A `Forecast` bound to predictor `pB` and the example dataset group. -/
def fcW : Forecast :=
  { predictor := { arn := "pB" }, dataset_group := dsgW, forecast_config := [] }

/-- A forecast summary belonging to the example dataset group. -/
def fsumW : ForecastSummary :=
  { forecastArn := "f1", datasetGroupArn := "dg1", lastModificationTime := 10 }

/-- A remote state with no forecasts at all. -/
def svcEmpty : ForecastService :=
  { forecastPages := [],
    describeForecast := fun _ => .error (.other "unreached"),
    describeForecastExportJob := fun _ => .error (.other "unreached"),
    createForecastResponse := fun _ _ => .ok (),
    createForecastExportJobResponse := fun _ _ _ => .ok () }

/-- A remote state whose one forecast was generated by predictor `pA` and is
reported `ACTIVE`. -/
def svcOtherPredictor : ForecastService :=
  { svcEmpty with
    forecastPages := [[fsumW]],
    describeForecast := fun _ =>
      .ok { predictorArn := "pA", creationTime := 10, statusStr := "ACTIVE" } }

/-- A remote state whose one forecast matches predictor `pB` but was created
at time 3, before the dataset's last modification at time 5. -/
def svcStaleData : ForecastService :=
  { svcEmpty with
    forecastPages := [[fsumW]],
    describeForecast := fun _ =>
      .ok { predictorArn := "pB", creationTime := 3, statusStr := "ACTIVE" } }

/-- A remote state whose one forecast is fresh but reports the status string
`BOGUS`, which the local enumeration does not contain. -/
def svcBogus : ForecastService :=
  { svcEmpty with
    forecastPages := [[fsumW]],
    describeForecast := fun _ =>
      .ok { predictorArn := "pB", creationTime := 10, statusStr := "BOGUS" } }

/-! ## History: draining pages, filtering and sorting -/

/-- Folding append over pages equals prepending the accumulator to the drain. -/
theorem foldl_append_acc (pages : List (List α)) (acc : List α) :
    pages.foldl (fun a page => a ++ page) acc = acc ++ drainPages pages := by
  induction pages generalizing acc with
  | nil => simp [drainPages]
  | cons x xs ih =>
    simp only [List.foldl_cons, drainPages, List.nil_append]
    rw [ih (acc ++ x), ih x]
    simp [List.append_assoc]

/-- Draining a cons of pages. -/
theorem drainPages_cons (x : List α) (pages : List (List α)) :
    drainPages (x :: pages) = x ++ drainPages pages := by
  simp only [drainPages, List.foldl_cons, List.nil_append]
  exact foldl_append_acc pages x

/-- Filtering each page and draining equals draining and filtering once. -/
theorem drainPages_filter (p : α → Bool) (pages : List (List α)) :
    drainPages (pages.map (fun page => page.filter p)) = (drainPages pages).filter p := by
  induction pages with
  | nil => rfl
  | cons x xs ih =>
    rw [List.map_cons, drainPages_cons, drainPages_cons, List.filter_append, ih]

/-! ## Claim theorems about `status`, `arn` and `history` -/

/-- Claim C3: for a dataset group with an empty forecast history, `status`
returns `DOES_NOT_EXIST` and `arn` returns `None`; neither raises. -/
theorem status_and_arn_empty_history (fc : Forecast) (svc : ForecastService)
    (h : fc.history svc = []) :
    fc.status svc = .ok Status.DOES_NOT_EXIST ∧ fc.arn svc = none := by
  constructor
  · unfold Forecast.status
    rw [h]
  · unfold Forecast.arn
    rw [h]

/-- Witness for C3 at the empty remote state. -/
theorem status_and_arn_empty_history_witness :
    fcW.history svcEmpty = [] ∧
    (fcW.status svcEmpty = .ok Status.DOES_NOT_EXIST ∧ fcW.arn svcEmpty = none) :=
  ⟨rfl, status_and_arn_empty_history fcW svcEmpty rfl⟩

/-- Claim C1: when the most recent forecast's recorded `PredictorArn` differs
from the current predictor's identifier, `status` returns `DOES_NOT_EXIST`,
whatever status string the remote service reports (in particular `ACTIVE`). -/
theorem status_different_predictor (fc : Forecast) (svc : ForecastService)
    (f : ForecastSummary) (rest : List ForecastSummary)
    (past : DescribeForecastResult)
    (hh : fc.history svc = f :: rest)
    (hd : svc.describeForecast f.forecastArn = .ok past)
    (hp : past.predictorArn ≠ fc.predictor.arn) :
    fc.status svc = .ok Status.DOES_NOT_EXIST := by
  unfold Forecast.status
  rw [hh]
  simp only [hd, if_pos hp]

/-- Witness for C1: predictor `pA` recorded, current predictor `pB`, remote
status `ACTIVE`. -/
theorem status_different_predictor_witness :
    fcW.history svcOtherPredictor = [fsumW] ∧
    svcOtherPredictor.describeForecast fsumW.forecastArn =
      .ok { predictorArn := "pA", creationTime := 10, statusStr := "ACTIVE" } ∧
    fcW.status svcOtherPredictor = .ok Status.DOES_NOT_EXIST :=
  ⟨by decide, rfl,
   status_different_predictor fcW svcOtherPredictor fsumW []
     { predictorArn := "pA", creationTime := 10, statusStr := "ACTIVE" }
     (by decide) rfl (by decide)⟩

/-- Claim C2: when some dataset of the owning dataset group was modified
strictly after the most recent forecast's creation time, `status` returns
`DOES_NOT_EXIST`, whatever the remote-reported status (and whichever
predictor is recorded). -/
theorem status_stale_datasets (fc : Forecast) (svc : ForecastService)
    (f : ForecastSummary) (rest : List ForecastSummary)
    (past : DescribeForecastResult) (d : DatasetRecord)
    (hh : fc.history svc = f :: rest)
    (hd : svc.describeForecast f.forecastArn = .ok past)
    (hmem : d ∈ fc.dataset_group.datasets)
    (hlt : past.creationTime < d.lastModificationTime) :
    fc.status svc = .ok Status.DOES_NOT_EXIST := by
  unfold Forecast.status
  rw [hh]
  simp only [hd]
  by_cases hp : past.predictorArn ≠ fc.predictor.arn
  · rw [if_pos hp]
  · rw [if_neg hp, if_pos]
    exact List.any_eq_true.mpr ⟨d, hmem, decide_eq_true hlt⟩

/-- Witness for C2: forecast created at time 3, dataset modified at time 5. -/
theorem status_stale_datasets_witness :
    fcW.history svcStaleData = [fsumW] ∧
    svcStaleData.describeForecast fsumW.forecastArn =
      .ok { predictorArn := "pB", creationTime := 3, statusStr := "ACTIVE" } ∧
    fcW.status svcStaleData = .ok Status.DOES_NOT_EXIST :=
  ⟨by decide, rfl,
   status_stale_datasets fcW svcStaleData fsumW []
     { predictorArn := "pB", creationTime := 3, statusStr := "ACTIVE" }
     { lastModificationTime := 5 }
     (by decide) rfl (by decide) (by decide)⟩

/-- Claim C9: when the most recent forecast exists, is not stale, and the
remote status string has no member in the local enumeration, `status` raises
the lookup error (KeyError), with no recovery or default. -/
theorem status_unmapped_raises (fc : Forecast) (svc : ForecastService)
    (f : ForecastSummary) (rest : List ForecastSummary)
    (past : DescribeForecastResult)
    (hh : fc.history svc = f :: rest)
    (hd : svc.describeForecast f.forecastArn = .ok past)
    (hp : past.predictorArn = fc.predictor.arn)
    (hfresh : ∀ d ∈ fc.dataset_group.datasets,
      d.lastModificationTime ≤ past.creationTime)
    (hl : Status.lookup past.statusStr = none) :
    fc.status svc = .error (.keyError past.statusStr) := by
  unfold Forecast.status
  rw [hh]
  simp only [hd]
  rw [if_neg (by simp [hp]), if_neg, hl]
  simp only [List.any_eq_true, not_exists]
  intro d
  rw [not_and]
  intro hmem
  simpa using Nat.not_lt.mpr (hfresh d hmem)

/-- Witness for C9: fresh forecast reporting status string `BOGUS`. -/
theorem status_unmapped_raises_witness :
    Status.lookup "BOGUS" = none ∧
    fcW.status svcBogus = .error (.keyError "BOGUS") :=
  ⟨rfl,
   status_unmapped_raises fcW svcBogus fsumW []
     { predictorArn := "pB", creationTime := 10, statusStr := "BOGUS" }
     (by decide) rfl rfl (by decide) rfl⟩

end ForecastPy

namespace ForecastPy

/-! ## Further fixtures -/

/-- A dataset file in bucket `bkt`. -/
def dfW : DatasetFile := { bucket := "bkt" }

/-- Remote state answering `create_forecast` with `ResourceAlreadyExistsException`. -/
def svcAlreadyExists : ForecastService :=
  { svcEmpty with createForecastResponse := fun _ _ => .error .resourceAlreadyExists }

/-- Remote state answering `create_forecast` with `ResourceInUseException`. -/
def svcInUse : ForecastService :=
  { svcEmpty with createForecastResponse := fun _ _ => .error .resourceInUse }

/-- Remote state answering `create_forecast` with an unexpected client error. -/
def svcBoom : ForecastService :=
  { svcEmpty with createForecastResponse := fun _ _ => .error (.other "boom") }

/-- Remote state with one forecast and no export job yet: describe answers
`ResourceNotFoundException`, create succeeds. -/
def svcExportNew : ForecastService :=
  { svcEmpty with
    forecastPages := [[fsumW]],
    describeForecastExportJob := fun _ => .error .resourceNotFound }

/-- Remote state with one forecast whose export job is mid-update: describe
answers `ResourceInUseException`. -/
def svcExportInUse : ForecastService :=
  { svcEmpty with
    forecastPages := [[fsumW]],
    describeForecastExportJob := fun _ => .error .resourceInUse }

/-- A forecast summary of a different dataset group. -/
def fsumOtherGroup : ForecastSummary :=
  { forecastArn := "fx", datasetGroupArn := "dg9", lastModificationTime := 99 }

/-- A newer forecast summary of the example dataset group. -/
def fsumNew : ForecastSummary :=
  { forecastArn := "f2", datasetGroupArn := "dg1", lastModificationTime := 20 }

/-- Remote state with two pages mixing dataset groups, out of order. -/
def svcTwoPages : ForecastService :=
  { svcEmpty with forecastPages := [[fsumW, fsumOtherGroup], [fsumNew]] }

/-- A second `Forecast` construction: different predictor and dataset-group
identity, but the same dataset-group name and latest timestamp. -/
def fcW2 : Forecast :=
  { predictor := { arn := "pA" },
    dataset_group :=
      { arn := "dg2", dataset_group_name := "sales",
        latest_timestamp := "2021-05-01T00:00:00Z", datasets := [] },
    forecast_config := [("ForecastTypes", "mean")] }

/-! ## Claim theorems about `history`, `create` and `export` -/

/-- Claim C8: `history()` returns a permutation of the drained pages filtered
by the owning dataset group's identifier, sorted descending by
last-modification time, and is empty (raising nothing) when the filtered
listing is empty. -/
theorem history_filter_sorted (fc : Forecast) (svc : ForecastService) :
    (fc.history svc).Perm ((drainPages svc.forecastPages).filter
        (fun f => f.datasetGroupArn == fc.dataset_group.arn))
    ∧ (fc.history svc).Sorted lmtGE
    ∧ ((drainPages svc.forecastPages).filter
        (fun f => f.datasetGroupArn == fc.dataset_group.arn) = [] →
        fc.history svc = []) := by
  have hdrain : drainPages (svc.listForecastsPages fc.dataset_group.arn)
      = (drainPages svc.forecastPages).filter
          (fun f => f.datasetGroupArn == fc.dataset_group.arn) :=
    drainPages_filter _ _
  refine ⟨?_, ?_, ?_⟩
  · unfold Forecast.history
    rw [hdrain]
    exact List.perm_insertionSort _ _
  · unfold Forecast.history
    exact List.sorted_insertionSort _ _
  · intro h
    unfold Forecast.history
    rw [hdrain, h]
    rfl

/-- Witness for C8 on a two-page listing with a foreign dataset group mixed
in: the result keeps exactly the two `dg1` entries, newest first. -/
theorem history_filter_sorted_witness :
    ((fcW.history svcTwoPages).Perm ((drainPages svcTwoPages.forecastPages).filter
        (fun f => f.datasetGroupArn == fcW.dataset_group.arn))
    ∧ (fcW.history svcTwoPages).Sorted lmtGE
    ∧ ((drainPages svcTwoPages.forecastPages).filter
        (fun f => f.datasetGroupArn == fcW.dataset_group.arn) = [] →
        fcW.history svcTwoPages = []))
    ∧ fcW.history svcTwoPages = [fsumNew, fsumW] :=
  ⟨history_filter_sorted fcW svcTwoPages, by decide⟩

/-- A `create_forecast` response that `create()` swallows: success,
"already exists" or "in use". -/
def benignCreateResponse (r : Except RemoteError Unit) : Prop :=
  r = .ok () ∨ r = .error RemoteError.resourceAlreadyExists
    ∨ r = .error RemoteError.resourceInUse

/-- Claim C4: two sequential `create()` calls raise nothing whenever the
remote service answers each with success, "already exists" or "in use"; any
other remote error makes `create()` raise it. -/
theorem create_idempotent (fc : Forecast) (svc1 svc2 svc3 : ForecastService)
    (e : RemoteError)
    (h1 : benignCreateResponse
      (svc1.createForecastResponse fc.forecastName fc.predictor.arn))
    (h2 : benignCreateResponse
      (svc2.createForecastResponse fc.forecastName fc.predictor.arn))
    (hbad1 : e ≠ RemoteError.resourceAlreadyExists)
    (hbad2 : e ≠ RemoteError.resourceInUse)
    (h3 : svc3.createForecastResponse fc.forecastName fc.predictor.arn = .error e) :
    fc.createTwice svc1 svc2 = .ok ()
    ∧ (fc.create svc3).1 = .error (.remote e) := by
  constructor
  · rcases h1 with h | h | h <;> rcases h2 with g | g | g <;>
      simp [Forecast.createTwice, Forecast.create, h, g]
  · cases e with
    | resourceAlreadyExists => exact absurd rfl hbad1
    | resourceInUse => exact absurd rfl hbad2
    | resourceNotFound => simp [Forecast.create, h3]
    | other c => simp [Forecast.create, h3]

/-- Witness for C4: first call answered "already exists", second "in use",
both absorbed; a third state answering an unexpected error raises it. -/
theorem create_idempotent_witness :
    fcW.createTwice svcAlreadyExists svcInUse = .ok ()
    ∧ (fcW.create svcBoom).1 = .error (.remote (.other "boom")) :=
  create_idempotent fcW svcAlreadyExists svcInUse svcBoom (.other "boom")
    (Or.inr (Or.inl rfl)) (Or.inr (Or.inr rfl)) (by decide) (by decide) rfl

/-- Claim C10: the name `create()` uses is the pure function
`forecast_` + group name + `_` + latest timestamp of the dataset group, so two
constructions agreeing on those two inputs issue their create call under the
same name. -/
theorem create_name_pure (fc1 fc2 : Forecast) (svc1 svc2 : ForecastService)
    (hn : fc1.dataset_group.dataset_group_name = fc2.dataset_group.dataset_group_name)
    (ht : fc1.dataset_group.latest_timestamp = fc2.dataset_group.latest_timestamp) :
    fc1.forecastName = "forecast_" ++ fc1.dataset_group.dataset_group_name ++ "_"
        ++ fc1.dataset_group.latest_timestamp
    ∧ fc1.forecastName = fc2.forecastName
    ∧ (fc1.create svc1).2
        = [.createForecast fc1.forecastName fc1.predictor.arn fc1.forecast_config]
    ∧ (fc2.create svc2).2
        = [.createForecast fc1.forecastName fc2.predictor.arn fc2.forecast_config] := by
  have hname : fc1.forecastName = fc2.forecastName := by
    unfold Forecast.forecastName Forecast._latest_timestamp
    rw [hn, ht]
  refine ⟨rfl, hname, rfl, ?_⟩
  rw [hname]
  rfl

/-- Witness for C10: two constructions over dataset groups named `sales` with
latest timestamp `2021-05-01T00:00:00Z` (different predictors, identifiers and
configs) both use the name `forecast_sales_2021-05-01T00:00:00Z`. -/
theorem create_name_pure_witness :
    (fcW.forecastName = "forecast_" ++ fcW.dataset_group.dataset_group_name ++ "_"
        ++ fcW.dataset_group.latest_timestamp
    ∧ fcW.forecastName = fcW2.forecastName
    ∧ (fcW.create svcEmpty).2
        = [.createForecast fcW.forecastName fcW.predictor.arn fcW.forecast_config]
    ∧ (fcW2.create svcBoom).2
        = [.createForecast fcW.forecastName fcW2.predictor.arn fcW2.forecast_config])
    ∧ fcW.forecastName = "forecast_sales_2021-05-01T00:00:00Z" :=
  ⟨create_name_pure fcW fcW2 svcEmpty svcBoom rfl rfl, rfl⟩

end ForecastPy

namespace ForecastPy

/-! ## Claim theorems about `export` -/

/-- Claim C5 (amended): `export()` with no resolvable forecast ARN raises the
`ValueError` and issues no export-related remote call; its only remote
interaction is the forecast listing run by the `arn` property. -/
theorem export_no_arn_raises (fc : Forecast) (svc : ForecastService)
    (df : DatasetFile) (roleArn : Option String)
    (h : fc.arn svc = none) :
    (fc.exportOp svc df roleArn).1
      = .error (.valueError "Forecast does not yet exist - cannot perform export.")
    ∧ (fc.exportOp svc df roleArn).2 = [.listForecasts fc.dataset_group.arn] := by
  unfold Forecast.exportOp
  rw [h]
  exact ⟨rfl, rfl⟩

/-- Witness for the amended C5 at the empty remote state. -/
theorem export_no_arn_raises_witness :
    (fcW.exportOp svcEmpty dfW (some "role")).1
      = .error (.valueError "Forecast does not yet exist - cannot perform export.")
    ∧ (fcW.exportOp svcEmpty dfW (some "role")).2
      = [.listForecasts fcW.dataset_group.arn] :=
  export_no_arn_raises fcW svcEmpty dfW (some "role") rfl

/-- Counterexample to C5 as stated: with no forecast at all, `export()` does
raise the `ValueError`, yet its remote-call trace is not empty — resolving
`self.arn` itself performs a remote forecast listing. -/
theorem export_no_arn_counterexample :
    (fcW.exportOp svcEmpty dfW none).1
      = .error (.valueError "Forecast does not yet exist - cannot perform export.")
    ∧ (fcW.exportOp svcEmpty dfW none).2 ≠ [] := by
  constructor
  · rfl
  · decide

/-- Claim C6: `export()` on an existing forecast whose export job is not
found issues exactly one `create_forecast_export_job` call, with destination
path `s3://` + bucket + `/exports/` + export name, and returns an `Export`
with status `CREATE_PENDING`. -/
theorem export_creates_job (fc : Forecast) (svc : ForecastService)
    (df : DatasetFile) (roleArn : Option String)
    (f : ForecastSummary) (rest : List ForecastSummary)
    (hh : fc.history svc = f :: rest)
    (hnf : svc.describeForecastExportJob (exportJobArn f.forecastArn fc.exportName)
      = .error RemoteError.resourceNotFound)
    (hok : svc.createForecastExportJobResponse f.forecastArn fc.exportName
      ("s3://" ++ df.bucket ++ "/exports/" ++ fc.exportName) = .ok ()) :
    (fc.exportOp svc df roleArn).1 = .ok { status := Status.CREATE_PENDING }
    ∧ ((fc.exportOp svc df roleArn).2.countP RemoteCall.isCreateExportJob) = 1
    ∧ RemoteCall.createForecastExportJob f.forecastArn fc.exportName
        ("s3://" ++ df.bucket ++ "/exports/" ++ fc.exportName) roleArn
        ∈ (fc.exportOp svc df roleArn).2 := by
  have ha : fc.arn svc = some f.forecastArn := by
    unfold Forecast.arn
    rw [hh]
  refine ⟨?_, ?_, ?_⟩ <;>
    simp [Forecast.exportOp, ha, hnf, hok, RemoteCall.isCreateExportJob,
      List.countP_cons, List.countP_nil]

/-- Witness for C6: concrete state with one forecast and no export job. -/
theorem export_creates_job_witness :
    (fcW.exportOp svcExportNew dfW (some "role")).1
      = .ok { status := Status.CREATE_PENDING }
    ∧ ((fcW.exportOp svcExportNew dfW (some "role")).2.countP
        RemoteCall.isCreateExportJob) = 1
    ∧ RemoteCall.createForecastExportJob fsumW.forecastArn fcW.exportName
        ("s3://" ++ dfW.bucket ++ "/exports/" ++ fcW.exportName) (some "role")
        ∈ (fcW.exportOp svcExportNew dfW (some "role")).2 :=
  export_creates_job fcW svcExportNew dfW (some "role") fsumW []
    (by decide) rfl rfl

/-- Claim C7: in the resource-in-use branch of `export()`, no create call is
issued and the branch never assigns the result's status, so the returned
`Export` is the default-constructed one, whose status is `DOES_NOT_EXIST`. -/
theorem export_in_use_default (fc : Forecast) (svc : ForecastService)
    (df : DatasetFile) (roleArn : Option String)
    (f : ForecastSummary) (rest : List ForecastSummary)
    (hh : fc.history svc = f :: rest)
    (hiu : svc.describeForecastExportJob (exportJobArn f.forecastArn fc.exportName)
      = .error RemoteError.resourceInUse) :
    (fc.exportOp svc df roleArn).1 = .ok { }
    ∧ ({ } : Export).status = Status.DOES_NOT_EXIST
    ∧ ((fc.exportOp svc df roleArn).2.countP RemoteCall.isCreateExportJob) = 0 := by
  have ha : fc.arn svc = some f.forecastArn := by
    unfold Forecast.arn
    rw [hh]
  refine ⟨?_, rfl, ?_⟩ <;>
    simp [Forecast.exportOp, ha, hiu, RemoteCall.isCreateExportJob,
      List.countP_cons, List.countP_nil]

/-- Witness for C7: concrete state whose export job is mid-update. -/
theorem export_in_use_default_witness :
    (fcW.exportOp svcExportInUse dfW none).1 = .ok { }
    ∧ ({ } : Export).status = Status.DOES_NOT_EXIST
    ∧ ((fcW.exportOp svcExportInUse dfW none).2.countP
        RemoteCall.isCreateExportJob) = 0 :=
  export_in_use_default fcW svcExportInUse dfW none fsumW [] (by decide) rfl

end ForecastPy
